import Mathlib

/-!
Shallow embedding of the libForms terminal form engine (src/Form.py) and a
verification of its specification claims.

Terminal I/O is modelled explicitly: the user's input is a list of lines
consumed one at a time, and all observable effects (printed lines, prompts,
screen clears, callback invocations) are recorded as a trace of events.
Python exceptions are modelled with `Except`: `valueError`, `typeError`,
`keyError` and `indexError` mirror the corresponding Python exception
classes, and `eof` models `EOFError` raised by `input()` when the modelled
input list runs out.
-/

/-- Python exception classes that the embedded code can raise. -/
inductive PyErr where
  | valueError (msg : String)
  | typeError
  | keyError
  | indexError
  | eof
deriving DecidableEq

/-- One observable terminal / callback effect. `call id passSelf` records an
invocation of the user callback with identity `id`; `passSelf` is true when
the form instance is passed as the sole argument (the arity-1 dispatch rule
of the source). -/
inductive Event where
  | print (s : String)
  | prompt (s : String)
  | clear
  | call (id : Nat) (passSelf : Bool)
deriving DecidableEq

/-- colorama `Style.RESET_ALL`. -/
def RESET_ALL : String := "\x1b[0m"

/-- colorama `Style.BRIGHT`. -/
def BRIGHT : String := "\x1b[1m"

/-- colorama `Fore.RED`. -/
def FORE_RED : String := "\x1b[31m"

/-- Prefix test on character lists (plain Boolean recursion). -/
def listIsPfx : List Char → List Char → Bool
  | [], _ => true
  | _ :: _, [] => false
  | a :: as, b :: bs => a = b && listIsPfx as bs

/-- Python's substring operator `needle in hay` on strings. -/
def strContains (hay needle : String) : Bool :=
  hay.toList.tails.any (fun t => listIsPfx needle.toList t)

/-- A named entry whose name does not contain the reserved separator marker
(`"SEPARATOR" in name` negated). -/
def notSep {α : Type} (p : String × α) : Bool :=
  !(strContains p.1 "SEPARATOR")

/-- A Python callable as the embedding sees it: an opaque identity plus the
declared positional-argument count (`__code__.co_argcount`), which the source
inspects to choose the calling convention. -/
structure Cb where
  id : Nat
  argc : Nat
deriving DecidableEq

/-- `FormSettings.Setting` (src/Form.py lines 18-29). -/
inductive Setting where
  | HEADER
  | SEPARATOR
  | DEFAULT_CALLBACK
  | CLEAR_FORM_AFTER_ACTION
  | CLEAR_FORM_AFTER_FORM
  | CLEAN_FAILED_RESPONSES
  | ERROR_COLOUR
  | OPTIONS_TEXT
deriving DecidableEq

/-- A dynamic Python value as stored in the settings dictionary. -/
inductive SVal where
  | str (s : String)
  | int (n : Int)
  | bool (b : Bool)
  | none
  | callable (c : Cb)
deriving DecidableEq

/-- Python `isinstance(v, str)`. -/
def SVal.isStr : SVal → Bool
  | .str _ => true
  | _ => false

/-- Python `isinstance(v, bool)`. -/
def SVal.isBool : SVal → Bool
  | .bool _ => true
  | _ => false

/-- Python `isinstance(v, int)`: `bool` is a subclass of `int` in Python, so
boolean values also pass this check. -/
def SVal.isInt : SVal → Bool
  | .int _ => true
  | .bool _ => true
  | _ => false

/-- Python `callable(v)`. -/
def SVal.isCallable : SVal → Bool
  | .callable _ => true
  | _ => false

/-- Python truthiness of a settings value. -/
def svTruthy : SVal → Bool
  | .str s => !(s = "")
  | .int n => !(n = 0)
  | .bool b => b
  | .none => false
  | .callable _ => true

/-- Python `str(v)` on a settings value, used when a setting is printed. -/
def pyStr : SVal → String
  | .str s => s
  | .int n => toString n
  | .bool b => if b then "True" else "False"
  | .none => "None"
  | .callable c => "<function " ++ toString c.id ++ ">"

/-- Python `i == v` comparing an `int` with a dynamic value (the failure
threshold comparison in `OptionForm.send`). In Python `True == 1` and
`False == 0`; comparison with any non-numeric value is `False`. -/
def pyIntEqSVal (i : Int) : SVal → Bool
  | .int t => i = t
  | .bool b => i = (if b then 1 else 0)
  | _ => false

/-- The settings dictionary of a `FormSettings` object: the key set is the
full enumeration at all times, so it is a total map. -/
def Settings : Type := Setting → SVal

/-- Dictionary write `self.settings[setting] = newVal`. -/
def Settings.update (st : Settings) (k : Setting) (v : SVal) : Settings :=
  fun s => if s = k then v else st s

/-- `FormSettings.__init__` defaults (src/Form.py lines 31-42). -/
def defaultSettings : Settings
  | .HEADER => .str "........................................................"
  | .SEPARATOR => .str ""
  | .DEFAULT_CALLBACK => .none
  | .CLEAR_FORM_AFTER_ACTION => .bool false
  | .CLEAR_FORM_AFTER_FORM => .bool false
  | .CLEAN_FAILED_RESPONSES => .int 0
  | .ERROR_COLOUR => .str FORE_RED
  | .OPTIONS_TEXT => .str "Options"

/-- `FormSettings.editSetting` (src/Form.py lines 44-74). The `setting`
argument is an `Option Setting`: `none` models any argument that is not an
instance of the `Setting` enum, which fails the `isinstance` guard. -/
def editSetting (st : Settings) (setting : Option Setting) (newVal : SVal) :
    Except PyErr Settings :=
  match setting with
  | .none => .error (.valueError "Invalid setting")
  | .some s =>
    if s = .DEFAULT_CALLBACK && !newVal.isCallable then
      .error (.valueError "default_callback must be a callable")
    else if s = .HEADER || s = .SEPARATOR then
      match newVal with
      | .str v => .ok (st.update s (.str (v ++ RESET_ALL)))
      | _ => .error (.valueError "must be a string")
    else if (s = .CLEAR_FORM_AFTER_ACTION || s = .CLEAR_FORM_AFTER_FORM)
        && !newVal.isBool then
      .error (.valueError "must be a boolean")
    else if s = .CLEAN_FAILED_RESPONSES then
      if svTruthy newVal && !newVal.isInt then
        .error (.valueError "must be None or an int")
      else
        .ok (st.update s (if svTruthy newVal then newVal else .int 0))
    else if s = .OPTIONS_TEXT then
      match newVal with
      | .str v =>
        if v = "" then .ok (st.update s .none)
        else .ok (st.update s (.str (v ++ RESET_ALL)))
      | _ => .ok (st.update s .none)
    else
      .ok (st.update s newVal)

/-- `FormSettings.getSetting` (src/Form.py lines 76-88). -/
def getSetting (st : Settings) (setting : Option Setting) : Except PyErr SVal :=
  match setting with
  | .none => .error (.valueError "Invalid setting")
  | .some s => .ok (st s)

/-- The spec's per-key value-type rules (spec §3 SettingKey): string for the
header and separator, callable for the default callback, boolean for the two
clear flags, non-negative integer for the failure-reset threshold, any opaque
style token for the error colour, non-empty string for the options label.
This definition follows the spec's words and is the domain over which the
round-trip claim quantifies. -/
def specAccepts : Setting → SVal → Bool
  | .HEADER, .str _ => true
  | .SEPARATOR, .str _ => true
  | .DEFAULT_CALLBACK, .callable _ => true
  | .CLEAR_FORM_AFTER_ACTION, .bool _ => true
  | .CLEAR_FORM_AFTER_FORM, .bool _ => true
  | .CLEAN_FAILED_RESPONSES, .int n => 0 ≤ n
  | .ERROR_COLOUR, _ => true
  | .OPTIONS_TEXT, .str s => !(s = "")
  | _, _ => false

/-- Appends the colorama style reset to a string value (the transformation
`editSetting` applies to the header, separator and options-text settings). -/
def appendReset : SVal → SVal
  | .str s => .str (s ++ RESET_ALL)
  | v => v

/-- Ordered Python dictionary assignment (3.7+ semantics): writing to an
existing key replaces its value in place, keeping the key's position in
insertion order; writing a fresh key appends it. Dictionary keys are unique,
so replacing the first occurrence is exact. -/
def dictInsert {α : Type} : List (String × α) → String → α → List (String × α)
  | [], k, v => [(k, v)]
  | p :: rest, k, v =>
    if p.1 = k then (k, v) :: rest else p :: dictInsert rest k v

/-- Python dictionary read `d[k]`, `none` when the key is missing. -/
def dictLookup {α : Type} : List (String × α) → String → Option α
  | [], _ => none
  | (k, v) :: rest, key => if k = key then some v else dictLookup rest key

/-- Index of a key in a key list (`list.index` wrapped in `Option`). -/
def idxOf : List String → String → Option Nat
  | [], _ => none
  | k :: rest, key =>
    if k = key then some 0
    else (idxOf rest key).map (fun n => n + 1)

/-- The stored callback of an option entry. `addSeparator` stores the closure
`lambda: text + Style.RESET_ALL if text else ""`, modelled as `sepLambda`;
every user-supplied callback is an opaque `user` callable. -/
inductive Callback where
  | user (id : Nat) (argc : Nat)
  | sepLambda (text : Option String)
deriving DecidableEq

/-- `__code__.co_argcount` of a stored callback (a zero-argument lambda for
separator entries). -/
def Callback.argcOf : Callback → Nat
  | .user _ a => a
  | .sepLambda _ => 0

/-- Return value of calling a separator closure with zero arguments:
`text + Style.RESET_ALL if text else ""` (empty when `text` is falsy). -/
def sepText : Option String → String
  | some t => if t = "" then "" else t ++ RESET_ALL
  | none => ""

/-- Effects of invoking an option callback through the arity dispatch at the
end of `OptionForm.send`: a user callback with `co_argcount == 1` receives
the form instance, any other is called with no arguments; calling a separator
closure has no observable effect. -/
def dispatchEvents : Callback → List Event
  | .user id a => [.call id (a = 1)]
  | .sepLambda _ => []

/-- Value stored per option name (`_CALLBACK` and `_TOOLTIP` slots). -/
structure OptData where
  callback : Callback
  tooltip : Option String
deriving DecidableEq

/-- `OptionForm` state. `settings` is the shared `FormSettings` registry. -/
structure OptionForm where
  title : String
  body : Option String
  separatorCount : Nat
  settings : Settings
  options : List (String × OptData)
  default_option : Option String

/-- `OptionForm.__init__` composed with `Form.__init__` (title is wrapped in
`Style.BRIGHT`, the body gets a style reset appended). -/
def OptionForm.mkNew (title : String) (body : Option String) (st : Settings) :
    OptionForm :=
  { title := BRIGHT ++ title ++ RESET_ALL
    body := body.map (fun b => b ++ RESET_ALL)
    separatorCount := 0
    settings := st
    options := []
    default_option := none }

/-- `OptionForm.addOption` (src/Form.py lines 162-184). The guard
`"SEPARATOR" in name and not "SEPARATOR" in tooltip` short-circuits: the
tooltip membership test is evaluated only when the name contains the marker,
and evaluating it on a `None` tooltip raises `TypeError` (`argument of type
NoneType is not iterable`). The callback parameter is a genuine callable in
this embedding, so the `callable(callback)` guard always passes. -/
def OptionForm.addOption (f : OptionForm) (name : String) (callback : Callback)
    (tooltip : Option String := none) (isDefault : Bool := false) :
    Except PyErr OptionForm :=
  if strContains name "SEPARATOR" then
    match tooltip with
    | none => .error .typeError
    | some t =>
      if !(strContains t "SEPARATOR") then
        .error (.valueError "Option name and tooltip can not include 'SEPARATOR'")
      else
        .ok { f with
                options := dictInsert f.options name ⟨callback, tooltip⟩
                default_option := if isDefault then some name else f.default_option }
  else
    .ok { f with
            options := dictInsert f.options name ⟨callback, tooltip⟩
            default_option := if isDefault then some name else f.default_option }

/-- `OptionForm.addSeparator` (src/Form.py lines 186-189): bumps the counter
and registers a `SEPARATOR<n>` entry through `addOption` with the separator
closure as callback and the literal tooltip `"SEPARATOR"`. -/
def OptionForm.addSeparator (f : OptionForm) (text : Option String := none) :
    Except PyErr OptionForm :=
  let f := { f with separatorCount := f.separatorCount + 1 }
  f.addOption ("SEPARATOR" ++ toString f.separatorCount) (.sepLambda text)
    (some "SEPARATOR") false

/-- `clear_terminal` (defined inside both `send` methods): prints a debug
line, twenty blank lines, then issues the OS clear command. -/
def clearTrace : List Event :=
  [.print "Clearing Form...", .print (String.mk (List.replicate 20 '\n')), .clear]

/-- `Form.send` (src/Form.py lines 118-130): header, title, optional body,
separator setting. -/
def renderHeading (st : Settings) (title : String) (body : Option String) :
    List Event :=
  [.print (pyStr (st .HEADER)), .print title]
    ++ (match body with | some b => [.print b] | none => [])
    ++ [.print (pyStr (st .SEPARATOR))]

/-- The option-listing loop of `OptionForm.send` (src/Form.py lines 206-215).
Separator entries print the string their stored closure returns, indented two
spaces; selectable entries print `  <idx>. <name>` with an optional tooltip
arrow, counting only selectables. An entry whose name contains the marker but
whose callback is a user callable returns `None` from the zero-argument call,
and `"  " + None` raises `TypeError` (unreachable through the public API). -/
def renderOptions : List (String × OptData) → Nat → Except PyErr (List Event)
  | [], _ => .ok []
  | (name, d) :: rest, idx =>
    if strContains name "SEPARATOR" then
      match d.callback with
      | .sepLambda t =>
        (renderOptions rest idx).map (fun evs => .print ("  " ++ sepText t) :: evs)
      | .user _ _ => .error .typeError
    else
      (renderOptions rest (idx + 1)).map (fun evs =>
        .print ("  " ++ toString idx ++ ". " ++ name ++
            (match d.tooltip with
             | some t => if t = "" then "" else " --> " ++ t ++ RESET_ALL
             | none => "") ++ RESET_ALL) :: evs)

/-- The local `options` dictionary rebuilt by `OptionForm.send`: registered
entries whose name does not contain the separator marker. -/
def selectables (l : List (String × OptData)) : List (String × OptData) :=
  l.filter notSep

/-- Everything `OptionForm.send` displays before the prompt loop: the base
heading, the options label (printed with a colon when truthy), the option
list, and the separator setting again. -/
def renderFull (f : OptionForm) : Except PyErr (List Event) :=
  (renderOptions f.options 1).map (fun opts =>
    renderHeading f.settings f.title f.body
      ++ (if svTruthy (f.settings .OPTIONS_TEXT)
          then [.print (pyStr (f.settings .OPTIONS_TEXT) ++ ":")] else [])
      ++ opts
      ++ [.print (pyStr (f.settings .SEPARATOR))])

/-- Python `int(s)` restricted to the plain decimal integer literals the
prompt loop can receive: optional sign followed by at least one digit
(`None` models the `ValueError` raised on anything else). -/
def pyParseInt (s : String) : Option Int :=
  let withSign : List Char → Option (Int × List Char)
    | '+' :: t => some (1, t)
    | '-' :: t => some (-1, t)
    | cs => some (1, cs)
  match withSign s.toList with
  | some (sign, ds) =>
    if ds ≠ [] && ds.all Char.isDigit then
      some (sign * (ds.foldl (fun a c => a * 10 + ((c.toNat : Int) - 48)) 0))
    else
      none
  | none => none

/-- Truthiness of the `choice` local (`not choice` in the source): `None` and
`0` are falsy. -/
def intOptTruthy : Option Int → Bool
  | none => false
  | some c => !(c = 0)

/-- `choice not in range(1, len(options) + 1)` negated: `None` is never in a
range. -/
def choiceInRange (choice : Option Int) (n : Nat) : Bool :=
  match choice with
  | none => false
  | some c => 1 ≤ c && c ≤ (n : Int)

/-- String concatenation `colour + msg` where `colour` is a dynamic settings
value: `TypeError` unless it is a string. -/
def svalConcatStr (v : SVal) (msg : String) : Except PyErr String :=
  match v with
  | .str c => .ok (c ++ msg)
  | _ => .error .typeError

/-- End-of-iteration recolouring
`if error: error = getSetting(ERROR_COLOUR) + error + RESET_ALL`. -/
def recolor (st : Settings) (error : Option String) : Except PyErr (Option String) :=
  match error with
  | some e =>
    if e = "" then .ok (some e)
    else (svalConcatStr (st .ERROR_COLOUR) (e ++ RESET_ALL)).map some
  | none => .ok none

/-- Outcome of one consuming iteration of the prompt loop. -/
inductive StepOut where
  | done (choice : Int) (evs : List Event)
  | again (error : Option String) (choice invalid : Option Int) (evs : List Event)

/-- One iteration of the `while` body of `OptionForm.send` after the
failure-reset check, consuming exactly one input line (src/Form.py lines
226-244). `inv0` is the value of `invalid` after `invalid = invalid or 0`.
On a parse failure with a falsy `choice` and a default option set, the
default's position resolves the choice immediately (`break` skips the
recolouring); if the default is absent from the option keys the inner
`except: pass` falls through to the plain error handling. -/
def optStep (st : Settings) (sel : List (String × OptData))
    (default_option : Option String) (error : Option String)
    (choice : Option Int) (inv0 : Int) (i : String) : Except PyErr StepOut :=
  let errEvs : List Event :=
    match error with
    | some e => if e = "" then [] else [.print e]
    | none => []
  let evs := errEvs ++ [Event.prompt "Choose an option by number: "]
  match pyParseInt i with
  | some c =>
    if 1 ≤ c && c ≤ (sel.length : Int) then
      match recolor st error with
      | .error e => .error e
      | .ok _ => .ok (.done c evs)
    else
      match recolor st (some "Invalid choice, please try again.") with
      | .error e => .error e
      | .ok e' => .ok (.again e' (some c) (some (inv0 + 1)) evs)
  | none =>
    match default_option, intOptTruthy choice with
    | some dflt, false =>
      match idxOf (sel.map Prod.fst) dflt with
      | some j => .ok (.done ((j : Int) + 1) evs)
      | none =>
        match recolor st (some "Please enter a valid number.") with
        | .error e => .error e
        | .ok e' => .ok (.again e' choice (some (inv0 + 1)) evs)
    | _, _ =>
      match recolor st (some "Please enter a valid number.") with
      | .error e => .error e
      | .ok e' => .ok (.again e' choice (some (inv0 + 1)) evs)

/-- The failure-reset check at the top of each iteration:
`isinstance(invalid, int) and invalid == getSetting(CLEAN_FAILED_RESPONSES)`. -/
def resetFires (st : Settings) (invalid : Option Int) : Bool :=
  match invalid with
  | some i => pyIntEqSVal i (st .CLEAN_FAILED_RESPONSES)
  | none => false

/-- The prompt loop of `OptionForm.send` (src/Form.py lines 219-244). The
source restarts by the tail call `return self.send(error)`; since every
enclosing frame only returns, this embedding flattens the restart into the
same loop: it emits the clear-and-redraw events, carries the error forward
and continues with fresh `choice`/`invalid` locals, exactly as the fresh
invocation would. Terminates because every iteration consumes one input line
(`eof` models `EOFError` when none is left). -/
def optLoop (f : OptionForm) (sel : List (String × OptData))
    (error : Option String) (choice invalid : Option Int) :
    List String → Except PyErr (Int × List String × List Event)
  | [] =>
    if choiceInRange choice sel.length then
      .ok (choice.getD 0, [], [])
    else if resetFires f.settings invalid then
      match renderFull f with
      | .error e => .error e
      | .ok _ => .error .eof
    else
      .error .eof
  | i :: rest =>
    if choiceInRange choice sel.length then
      .ok (choice.getD 0, i :: rest, [])
    else
      match
        (if resetFires f.settings invalid then
          (renderFull f).map (fun rt =>
            (clearTrace ++ rt, (none : Option Int), (none : Option Int)))
        else
          .ok ([], choice, invalid) :
          Except PyErr (List Event × Option Int × Option Int))
      with
      | .error e => .error e
      | .ok (pre, choiceR, invalidR) =>
        match optStep f.settings sel f.default_option error choiceR
            (invalidR.getD 0) i with
        | .error e => .error e
        | .ok (.done c evs) => .ok (c, rest, pre ++ evs)
        | .ok (.again errorN choiceN invalidN evs) =>
          match optLoop f sel errorN choiceN invalidN rest with
          | .error e => .error e
          | .ok (c, rem, tr) => .ok (c, rem, pre ++ evs ++ tr)

/-- `OptionForm.send` (src/Form.py lines 191-258): render, prompt until a
choice resolves, then clear when `CLEAR_FORM_AFTER_FORM` is set, run the
form-level `DEFAULT_CALLBACK` (a zero-argument call; a truthy non-callable
raises `TypeError`), and dispatch the chosen option's callback under the
arity rule. Returns the unconsumed input and the event trace (the Python
method returns `None`). -/
def OptionForm.send (f : OptionForm) (error : Option String)
    (inputs : List String) : Except PyErr (List String × List Event) :=
  match renderFull f with
  | .error e => .error e
  | .ok rt =>
    let sel := selectables f.options
    match optLoop f sel error none none inputs with
    | .error e => .error e
    | .ok (choice, rem, ltr) =>
      match sel.get? (choice - 1).toNat with
      | none => .error .indexError
      | some (chosenName, _) =>
        let clearEvs :=
          if svTruthy (f.settings .CLEAR_FORM_AFTER_FORM) then clearTrace else []
        match
          (if svTruthy (f.settings .DEFAULT_CALLBACK) then
            match f.settings .DEFAULT_CALLBACK with
            | .callable cb => .ok [Event.call cb.id false]
            | _ => .error .typeError
          else .ok [] : Except PyErr (List Event))
        with
        | .error e => .error e
        | .ok dcEvs =>
          match dictLookup f.options chosenName with
          | none => .error .keyError
          | some d =>
            .ok (rem, rt ++ ltr ++ clearEvs ++ dcEvs ++ dispatchEvents d.callback)

/-- `InputForm.InputConsts` (src/Form.py lines 263-268). -/
inductive InputConst where
  | TEXT
  | NUMBER
  | BOOL
deriving DecidableEq

/-- `InputForm.NumConsts` (src/Form.py lines 280-285). `NUMTYPEKEY` is the
dictionary key member of the same enum; a caller can pass it as a `numType`,
which the coercion step reports as a programming error. -/
inductive NumConst where
  | NUMTYPEKEY
  | NUM_INT
  | NUM_FLOAT
deriving DecidableEq

/-- A typed response value: Python `str`, `int`, `float` or `bool`.
Python floats are modelled as exact rationals; every numeric literal the
claims exercise is an exactly representable short decimal, for which the
binary double and the rational agree on parsing, comparison and rounding. -/
inductive PyVal where
  | str (s : String)
  | int (n : Int)
  | float (q : Rat)
  | bool (b : Bool)
deriving DecidableEq

/-- A user validation function: declared positional-argument count plus the
mapping from candidate value to Python result, restricted to the documented
contract (`None`/falsy or a message string). `some ""` is a falsy result. -/
structure Validation where
  argc : Nat
  fn : PyVal → Option String

/-- Truthiness of a validation result (`if validation_result:`). -/
def valTruthy : Option String → Bool
  | some s => !(s = "")
  | none => false

/-- The per-name entry dictionary of `InputForm.inputs`. Registration stores
`RESPONSE`, `TOOLTIP`, `TYPE`, `VALIDATION`, `DEFAULT`, `CALLBACK` and (for
number inputs) the `numtype` key; a separator entry stores only `TOOLTIP`,
so every other component is `none` for it. -/
structure FieldData where
  type : Option InputConst := none
  response : Option PyVal := none
  tooltip : Option String := none
  validation : Option Validation := none
  default : Option PyVal := none
  callback : Option Cb := none
  numtype : Option NumConst := none

/-- `InputForm` state. -/
structure InputForm where
  title : String
  body : Option String
  separatorCount : Nat
  settings : Settings
  inputs : List (String × FieldData)

/-- `InputForm.__init__` composed with `Form.__init__`. -/
def InputForm.mkNew (title : String) (body : Option String) (st : Settings) :
    InputForm :=
  { title := BRIGHT ++ title ++ RESET_ALL
    body := body.map (fun b => b ++ RESET_ALL)
    separatorCount := 0
    settings := st
    inputs := [] }

/-- The `_formInputRegistration` guard (src/Form.py lines 292-314): reserved
name and validation-arity checks shared by every register method. A truthy
validation with `co_argcount != 1` is rejected. -/
def inputRegistrationGuard (name : String) (validation : Option Validation) :
    Except PyErr Unit :=
  if strContains name "SEPARATOR" then
    .error (.valueError "Input name and tooltip cannot include 'SEPARATOR'")
  else
    match validation with
    | some v =>
      if v.argc ≠ 1 then
        .error (.valueError "Validation function must take at least one parameter (response)")
      else .ok ()
    | none => .ok ()

/-- `InputForm.registerTextInput` (src/Form.py lines 316-330) including the
registration decorator: the wrapper stores a fresh entry holding only
`RESPONSE = None` and the tooltip, then the method fills `TYPE`, `VALIDATION`,
`DEFAULT` and `CALLBACK`. Re-registering a name replaces its entry wholesale. -/
def InputForm.registerTextInput (f : InputForm) (name : String)
    (tooltip : Option String := none) (validation : Option Validation := none)
    (default : Option PyVal := none) (callback : Option Cb := none) :
    Except PyErr InputForm :=
  match inputRegistrationGuard name validation with
  | .error e => .error e
  | .ok _ =>
    let d : FieldData :=
      { type := some .TEXT, response := none, tooltip := tooltip
        validation := validation, default := default, callback := callback }
    .ok { f with inputs := dictInsert f.inputs name d }

/-- `InputForm.registerNumberInput` (src/Form.py lines 332-347): like text
registration but also stores the numeric subtype under the `numtype` key and
sets `TYPE = NUMBER`. -/
def InputForm.registerNumberInput (f : InputForm) (name : String)
    (tooltip : Option String := none) (numType : NumConst := .NUM_INT)
    (validation : Option Validation := none) (default : Option PyVal := none)
    (callback : Option Cb := none) : Except PyErr InputForm :=
  match inputRegistrationGuard name validation with
  | .error e => .error e
  | .ok _ =>
    let d : FieldData :=
      { type := some .NUMBER, response := none, tooltip := tooltip
        validation := validation, default := default, callback := callback
        numtype := some numType }
    .ok { f with inputs := dictInsert f.inputs name d }

/-- `InputForm.registerBoolInput` (src/Form.py lines 349-365): defined
through `registerTextInput` (name, tooltip, callback only), then overrides
`TYPE` to `BOOL` and sets the default. -/
def InputForm.registerBoolInput (f : InputForm) (name : String)
    (tooltip : Option String := none) (default : Option PyVal := none)
    (callback : Option Cb := none) : Except PyErr InputForm :=
  match f.registerTextInput name tooltip none none callback with
  | .error e => .error e
  | .ok f' =>
    match dictLookup f'.inputs name with
    | none => .error .keyError
    | some d =>
      let d' : FieldData := { d with type := some .BOOL, default := default }
      .ok { f' with inputs := dictInsert f'.inputs name d' }

/-- `InputForm.addSeparator` (src/Form.py lines 367-371): a display-only
entry whose tooltip is `str(text)` or the empty string. -/
def InputForm.addSeparator (f : InputForm) (text : Option String := none) :
    InputForm :=
  let c := f.separatorCount + 1
  { f with
      separatorCount := c
      inputs := dictInsert f.inputs ("SEPARATOR" ++ toString c)
        ({ tooltip := some (match text with | some t => t | none => "") } : FieldData) }

/-- Python `round(q)`: round half to even (banker's rounding). `r2` is twice
the fractional part of `q` scaled by the denominator, compared against the
denominator to decide which side of the halfway point the value lies on. -/
def pyRound (q : Rat) : Int :=
  let fl := q.floor
  let r2 : Int := 2 * (q.num - fl * (q.den : Int))
  if r2 < (q.den : Int) then fl
  else if (q.den : Int) < r2 then fl + 1
  else if fl % 2 = 0 then fl else fl + 1

/-- Numeric value of a digit list (zero when empty). -/
def digitsVal (ds : List Char) : Nat :=
  ds.foldl (fun a c => a * 10 + (c.toNat - 48)) 0

/-- Python `float(s)` restricted to plain decimal literals `[sign] digits`
or `[sign] digits . digits` (either digit group may be empty but not both).
`None` models the `ValueError` on any other input; special floats, exponents
and underscores do not occur in the modelled scenarios. -/
def pyParseFloat (s : String) : Option Rat :=
  let core : List Char → Option Rat := fun cs =>
    let intPart := cs.takeWhile (fun c => !(c = '.'))
    match cs.drop intPart.length with
    | [] =>
      if intPart ≠ [] && intPart.all Char.isDigit then
        some (mkRat (digitsVal intPart) 1)
      else none
    | '.' :: fracPart =>
      if intPart.all Char.isDigit && fracPart.all Char.isDigit
          && (intPart ≠ [] || fracPart ≠ []) then
        some (mkRat (digitsVal intPart * 10 ^ fracPart.length + digitsVal fracPart)
          (10 ^ fracPart.length))
      else none
    | _ => none
  match s.toList with
  | '+' :: t => core t
  | '-' :: t => (core t).map (fun q => -q)
  | cs => core cs

/-- Pads a digit string with leading zeros to the given width. -/
def padZeros (s : String) (n : Nat) : String :=
  String.mk (List.replicate (n - s.length) '0') ++ s

/-- Python `str()` of a float value with an exact short-decimal
representation (the only floats the embedding constructs); a non-decimal
rational falls back to its raw print, which no modelled scenario reaches. -/
def floatRepr (q : Rat) : String :=
  if q.den = 1 then toString q.num ++ ".0"
  else
    match (List.range 17).find? (fun k => (10 ^ (k + 1)) % q.den = 0) with
    | some k =>
      let p : Nat := 10 ^ (k + 1)
      let m : Int := q.num * ((p / q.den : Nat) : Int)
      (if m < 0 then "-" else "") ++ toString (m.natAbs / p) ++ "."
        ++ padZeros (toString (m.natAbs % p)) (k + 1)
    | none => toString q

/-- Python `str(v)` of a typed response value (used in the default-value
prompt text). -/
def pyValStr : PyVal → String
  | .str s => s
  | .int n => toString n
  | .float q => floatRepr q
  | .bool b => if b then "True" else "False"

/-- The `inputCode` prompt of `InputForm.send` (src/Form.py lines 392-398):
name, optional default display, optional tooltip arrow, `(y/n)` for booleans,
then the colon. -/
def promptOf (name : String) (d : FieldData) : String :=
  name
    ++ (match d.default with
        | some v => " (Default: " ++ pyValStr v ++ RESET_ALL ++ ")"
        | none => "")
    ++ (match d.tooltip with
        | some t => if t = "" then "" else " --> " ++ t ++ RESET_ALL
        | none => "")
    ++ (if d.type = some InputConst.BOOL then " (y/n)" else "")
    ++ ": "

/-- The per-field read loop of `InputForm.send` for a field of known kind
(src/Form.py lines 400-457), consuming one input line per iteration.

* BOOL: `y/yes/true` and `n/no/false` after lowercasing; empty input takes
  the default when one exists; otherwise an error is printed and the loop
  repeats.
* NUMBER: empty input takes the default when one exists; the `numtype` key
  is read (`KeyError` if absent), the line is parsed as a float (parse
  failure prints an error and repeats), `NUM_INT` rounds to the nearest
  integer, and a `numtype` that is neither subtype raises the detailed
  `ValueError`. A registered validation is then run: the source's failure
  branch computes `Setting.ERROR_COLOUR + validation_result` — an enum plus
  a string — which raises `TypeError` that the surrounding `except
  ValueError` does not catch, so the whole `send` aborts.
* TEXT: empty input takes the default when one exists; otherwise a failed
  validation prints the coloured message and repeats, and success accepts
  the raw string. -/
def typedLoop (st : Settings) (name : String) (d : FieldData) (t : InputConst) :
    List String → Except PyErr (PyVal × List String × List Event)
  | [] => .error .eof
  | i :: rest =>
    let evs : List Event := [.prompt (promptOf name d)]
    match t with
    | .BOOL =>
      let r := i.toLower
      if r = "y" || r = "yes" || r = "true" then .ok (.bool true, rest, evs)
      else if r = "n" || r = "no" || r = "false" then .ok (.bool false, rest, evs)
      else
        match r == "", d.default with
        | true, some v => .ok (v, rest, evs)
        | _, _ =>
          match svalConcatStr (st .ERROR_COLOUR)
              ("Invalid input: Please enter 'y' or 'n'." ++ RESET_ALL) with
          | .error e => .error e
          | .ok msg =>
            match typedLoop st name d t rest with
            | .error e => .error e
            | .ok (v, rem, tr) => .ok (v, rem, evs ++ [.print msg] ++ tr)
    | .NUMBER =>
      match i == "", d.default with
      | true, some v => .ok (v, rest, evs)
      | _, _ =>
        match d.numtype with
        | none => .error .keyError
        | some nt =>
          match pyParseFloat i with
          | none =>
            match svalConcatStr (st .ERROR_COLOUR)
                ("Please enter a valid number." ++ RESET_ALL) with
            | .error e => .error e
            | .ok msg =>
              match typedLoop st name d t rest with
              | .error e => .error e
              | .ok (v, rem, tr) => .ok (v, rem, evs ++ [.print msg] ++ tr)
          | some q =>
            match
              (match nt with
               | .NUM_FLOAT => .ok (PyVal.float q)
               | .NUM_INT => .ok (PyVal.int (pyRound q))
               | .NUMTYPEKEY =>
                 .error (.valueError "numType NumConsts.NUMTYPEKEY not a NumConst") :
               Except PyErr PyVal)
            with
            | .error e => .error e
            | .ok resp =>
              match d.validation with
              | some v =>
                if valTruthy (v.fn resp) then .error .typeError
                else .ok (resp, rest, evs)
              | none => .ok (resp, rest, evs)
    | .TEXT =>
      match i == "", d.default with
      | true, some v => .ok (v, rest, evs)
      | _, _ =>
        match d.validation with
        | some v =>
          match v.fn (.str i) with
          | some msg =>
            if msg = "" then .ok (.str i, rest, evs)
            else
              match svalConcatStr (st .ERROR_COLOUR) (msg ++ RESET_ALL) with
              | .error e => .error e
              | .ok out =>
                match typedLoop st name d t rest with
                | .error e => .error e
                | .ok (v', rem, tr) => .ok (v', rem, evs ++ [.print out] ++ tr)
          | none => .ok (.str i, rest, evs)
        | none => .ok (.str i, rest, evs)

/-- Acquires one non-separator field: the `TYPE` key is read first
(`KeyError` for an entry without one), then the kind-specific loop runs. -/
def fieldLoop (st : Settings) (name : String) (d : FieldData)
    (inputs : List String) : Except PyErr (PyVal × List String × List Event) :=
  match d.type with
  | none => .error .keyError
  | some t => typedLoop st name d t inputs

/-- The field iteration of `InputForm.send` (src/Form.py lines 387-466):
separator entries print their tooltip and are skipped; each other field is
acquired, its response stored, the display cleared when
`CLEAR_FORM_AFTER_ACTION` is truthy, and its callback dispatched under the
arity rule. Returns the updated entries in order. -/
def sendFields (st : Settings) :
    List (String × FieldData) → List String →
    Except PyErr (List (String × FieldData) × List String × List Event)
  | [], inputs => .ok ([], inputs, [])
  | (name, d) :: rest, inputs =>
    if strContains name "SEPARATOR" then
      match sendFields st rest inputs with
      | .error e => .error e
      | .ok (rest', rem, tr) =>
        .ok ((name, d) :: rest', rem,
          .print (match d.tooltip with | some t => t | none => "None") :: tr)
    else
      match fieldLoop st name d inputs with
      | .error e => .error e
      | .ok (resp, rem, evs) =>
        let clearEvs := if svTruthy (st .CLEAR_FORM_AFTER_ACTION) then clearTrace else []
        let cbEvs : List Event :=
          match d.callback with
          | some cb => [.call cb.id (cb.argc = 1)]
          | none => []
        match sendFields st rest rem with
        | .error e => .error e
        | .ok (rest', rem', tr) =>
          .ok ((name, { d with response := some resp }) :: rest', rem',
            evs ++ clearEvs ++ cbEvs ++ tr)

/-- `InputForm.send` (src/Form.py lines 373-478): renders the heading,
acquires every field in insertion order, runs the form-level
`DEFAULT_CALLBACK` when truthy, prints the header, clears when
`CLEAR_FORM_AFTER_FORM` is truthy, then destructively pops every separator
entry from `self.inputs` and returns that same collection. The result
carries the post-state form, the returned mapping (the form's own `inputs`),
the unconsumed input and the event trace. -/
def InputForm.send (f : InputForm) (inputs : List String) :
    Except PyErr (InputForm × List (String × FieldData) × List String × List Event) :=
  match sendFields f.settings f.inputs inputs with
  | .error e => .error e
  | .ok (inputs', rem, tr) =>
    match
      (if svTruthy (f.settings .DEFAULT_CALLBACK) then
        match f.settings .DEFAULT_CALLBACK with
        | .callable cb => .ok [Event.call cb.id false]
        | _ => .error .typeError
      else .ok [] : Except PyErr (List Event))
    with
    | .error e => .error e
    | .ok dcEvs =>
      let clearEvs :=
        if svTruthy (f.settings .CLEAR_FORM_AFTER_FORM) then clearTrace else []
      let cleaned := inputs'.filter notSep
      .ok ({ f with inputs := cleaned }, cleaned, rem,
        renderHeading f.settings f.title f.body ++ tr ++ dcEvs
          ++ [.print (pyStr (f.settings .HEADER))] ++ clearEvs)

/-- Callback invocations recorded in a trace. -/
def callEvents (tr : List Event) : List (Nat × Bool) :=
  tr.filterMap (fun e => match e with | .call i b => some (i, b) | _ => none)

/-- Relation between a registered entry and the corresponding entry after
`InputForm.send`: same name, and the same record except possibly for the
stored response. -/
def entryShape (p q : String × FieldData) : Prop :=
  p.1 = q.1 ∧ q.2 = { p.2 with response := q.2.response }

/-- A three-option form (`A`, `B`, `C`) with default settings, no default
option, and distinct user callbacks. -/
def optTestForm : OptionForm :=
  { title := "T", body := none, separatorCount := 0, settings := defaultSettings
    options := [("A", ⟨.user 1 0, none⟩), ("B", ⟨.user 2 0, some "tip"⟩),
                ("C", ⟨.user 3 0, none⟩)]
    default_option := none }

/-- The same form with `C` as the default option. -/
def optTestFormDefault : OptionForm :=
  { optTestForm with default_option := some "C" }

/-- The same form with the failure-reset threshold set to 2. -/
def optTestFormThresh : OptionForm :=
  { optTestForm with
      settings := Settings.update defaultSettings .CLEAN_FAILED_RESPONSES (.int 2) }

/-- The entry record of a NUMBER field of subtype INT with default 5 and no
tooltip, validation or callback. -/
def numEntry : FieldData :=
  { type := some .NUMBER, default := some (.int 5), numtype := some .NUM_INT }

/-- An input form holding one NUMBER field of subtype INT with default 5. -/
def numField (name : String) : InputForm :=
  { title := "T", body := none, separatorCount := 0, settings := defaultSettings
    inputs := [(name, numEntry)] }

/-- A validation function rejecting every candidate with a fixed message. -/
def vTooBig : Validation := ⟨1, fun _ => some "too big"⟩

/-- A validation function rejecting exactly the string `"x"`. -/
def vRejX : Validation :=
  ⟨1, fun v => match v with | .str "x" => some "no x allowed" | _ => none⟩

/-- An input form with one NUMBER field carrying a failing validation. -/
def numValForm : InputForm :=
  { title := "T", body := none, separatorCount := 0, settings := defaultSettings
    inputs := [("q", { type := some .NUMBER, validation := some vTooBig
                       numtype := some .NUM_INT })] }

/-- An input form with one TEXT field whose validation rejects `"x"`. -/
def textValForm : InputForm :=
  { title := "T", body := none, separatorCount := 0, settings := defaultSettings
    inputs := [("t", { type := some .TEXT, validation := some vRejX })] }

/-- An input form with one TEXT field carrying a tooltip. -/
def textTipForm : InputForm :=
  { title := "T", body := none, separatorCount := 0, settings := defaultSettings
    inputs := [("a", { type := some .TEXT, tooltip := some "tip" })] }

/-- The entry record `registerTextInput` stores for a given tooltip, with no
validation, default or callback. -/
def textEntry (tt : Option String) : FieldData :=
  { type := some .TEXT, response := none, tooltip := tt
    validation := none, default := none, callback := none }

/-- An input form with a separator entry followed by one TEXT field. -/
def mixedForm : InputForm :=
  { title := "T", body := none, separatorCount := 0, settings := defaultSettings
    inputs := [("SEPARATOR1", { tooltip := some "sep" }),
               ("a", { type := some .TEXT })] }

/-- The rendering trace shared by the three-option test forms: heading,
options label, the three option lines, and the (empty) separator setting. -/
def rt3 : List Event :=
  [.print "........................................................",
   .print "T", .print "", .print "Options:",
   .print ("  1. A" ++ RESET_ALL),
   .print ("  2. B --> tip" ++ RESET_ALL ++ RESET_ALL),
   .print ("  3. C" ++ RESET_ALL),
   .print ""]

/-- The full outcome of sending `mixedForm` with the single input `"hi"`:
the separator is printed then destructively dropped, and the text field's
record carries the response. -/
def mixedOut : InputForm × List (String × FieldData) × List String × List Event :=
  ({ mixedForm with inputs := [("a", { type := some .TEXT, response := some (.str "hi") })] },
   [("a", { type := some .TEXT, response := some (.str "hi") })], [],
   renderHeading defaultSettings "T" none
     ++ [.print "sep", .prompt "a: "]
     ++ [.print (pyStr (defaultSettings Setting.HEADER))])

/-- A freshly constructed OptionForm used to instantiate the registration
claims. -/
def wOptForm : OptionForm := OptionForm.mkNew "T" none defaultSettings

/-- A freshly constructed InputForm used to instantiate the registration
claims. -/
def wInForm : InputForm := InputForm.mkNew "T" none defaultSettings

/-! Helper lemmas. -/

theorem append_right_ne_empty (a b : String) (h : b.length ≠ 0) : ¬(a ++ b = "") := by
  intro hc
  have hl := congrArg String.length hc
  rw [String.length_append] at hl
  simp at hl
  omega

theorem dictLookup_dictInsert {α : Type} (l : List (String × α)) (k : String) (v : α) :
    dictLookup (dictInsert l k v) k = some v := by
  induction l with
  | nil => simp [dictInsert, dictLookup]
  | cons p rest ih =>
    by_cases hp : p.1 = k
    · simp [dictInsert, hp, dictLookup]
    · simp [dictInsert, hp, dictLookup, ih]

theorem keys_dictInsert_of_mem {α : Type} (l : List (String × α)) (k : String) (v : α)
    (h : k ∈ l.map Prod.fst) :
    (dictInsert l k v).map Prod.fst = l.map Prod.fst := by
  induction l with
  | nil => simp at h
  | cons p rest ih =>
    by_cases hp : p.1 = k
    · simp [dictInsert, hp]
    · simp only [List.map_cons, List.mem_cons] at h
      rcases h with h | h
      · exact absurd h.symm hp
      · simp [dictInsert, hp, ih h]

theorem mem_keys_dictInsert {α : Type} (l : List (String × α)) (k : String) (v : α) :
    k ∈ (dictInsert l k v).map Prod.fst := by
  induction l with
  | nil => simp [dictInsert]
  | cons p rest ih =>
    by_cases hp : p.1 = k
    · simp [dictInsert, hp]
    · simp [dictInsert, hp, ih]

theorem keys_dictInsert_sub {α : Type} (l : List (String × α)) (k : String) (v : α) :
    ∀ x ∈ (dictInsert l k v).map Prod.fst, x ∈ l.map Prod.fst ∨ x = k := by
  induction l with
  | nil => simp [dictInsert]
  | cons p rest ih =>
    by_cases hp : p.1 = k
    · intro x hx
      simp only [dictInsert, if_pos hp, List.map_cons, List.mem_cons] at hx ⊢
      tauto
    · intro x hx
      simp only [dictInsert, if_neg hp, List.map_cons, List.mem_cons] at hx ⊢
      rcases hx with hx | hx
      · tauto
      · rcases ih x hx with h | h <;> tauto

theorem nodup_keys_dictInsert {α : Type} (l : List (String × α)) (k : String) (v : α)
    (h : (l.map Prod.fst).Nodup) :
    ((dictInsert l k v).map Prod.fst).Nodup := by
  induction l with
  | nil => simp [dictInsert]
  | cons p rest ih =>
    simp only [List.map_cons, List.nodup_cons] at h
    by_cases hp : p.1 = k
    · simp only [dictInsert, if_pos hp, List.map_cons, List.nodup_cons]
      exact ⟨hp ▸ h.1, h.2⟩
    · simp only [dictInsert, if_neg hp, List.map_cons, List.nodup_cons]
      refine ⟨?_, ih h.2⟩
      intro hmem
      rcases keys_dictInsert_sub rest k v p.1 hmem with hm | hm
      · exact h.1 hm
      · exact hp hm

theorem sendFields_shape (st : Settings) :
    ∀ (l : List (String × FieldData)) (ins : List String)
      (res : List (String × FieldData) × List String × List Event),
      sendFields st l ins = .ok res → List.Forall₂ entryShape l res.1 := by
  intro l
  induction l with
  | nil =>
    intro ins res h
    simp only [sendFields] at h
    cases h
    exact List.Forall₂.nil
  | cons p rest ih =>
    intro ins res h
    obtain ⟨name, d⟩ := p
    simp only [sendFields] at h
    split at h
    · split at h
      · cases h
      · rename_i rest' heq
        cases h
        exact List.Forall₂.cons ⟨rfl, rfl⟩ (ih _ _ heq)
    · split at h
      · cases h
      · rename_i vrem hloop
        split at h
        · cases h
        · rename_i rest' heq
          cases h
          exact List.Forall₂.cons ⟨rfl, rfl⟩ (ih _ _ heq)

theorem forall2_map_fst {l lr : List (String × FieldData)}
    (h : List.Forall₂ entryShape l lr) :
    l.map Prod.fst = lr.map Prod.fst := by
  induction h with
  | nil => rfl
  | cons hpq _ ih => simp [hpq.1, ih]

theorem forall2_filter_notSep {l lr : List (String × FieldData)}
    (h : List.Forall₂ entryShape l lr) :
    List.Forall₂ entryShape (l.filter notSep) (lr.filter notSep) := by
  induction h with
  | nil => exact List.Forall₂.nil
  | @cons p q tl tlr hpq hrest ih =>
    have hq : notSep q = notSep p := by
      unfold notSep
      rw [hpq.1]
    by_cases hp : notSep p = true
    · simp only [List.filter_cons, hp, hq, if_pos rfl]
      exact List.Forall₂.cons hpq ih
    · simp only [List.filter_cons, hp, hq]
      simpa using ih

/-! Claim theorems. -/

/-- C1: the claim states that for TEXT and NUMBER fields a failing validation
message is printed verbatim with exactly one retry per attempt, and that the
failure never propagates an exception out of `send`. The TEXT path behaves as
claimed (second conjunct: the message for input `"x"` is printed and one
retry accepts `"y"`), but on the NUMBER path the source computes
`getSetting(Setting.ERROR_COLOUR + validation_result + Style.RESET_ALL)`,
whose argument adds an enum member to a string: the resulting `TypeError` is
not caught by the surrounding `except ValueError`, so `send` aborts (first
conjunct). -/
theorem C1_number_validation_typeerror :
    InputForm.send numValForm ["7"] = .error .typeError
    ∧ InputForm.send textValForm ["x", "y"] = .ok
      ({ textValForm with inputs :=
          [("t", { type := some .TEXT, validation := some vRejX, response := some (.str "y") })] },
        [("t", { type := some .TEXT, validation := some vRejX, response := some (.str "y") })], [],
        renderHeading defaultSettings "T" none
          ++ [.prompt "t: ",
              .print (FORE_RED ++ ("no x allowed" ++ RESET_ALL)),
              .prompt "t: "]
          ++ [.print (pyStr (defaultSettings Setting.HEADER))]) :=
  ⟨rfl, rfl⟩

/-- C2 counterexample: the claim states the returned mapping's value at each
key is the field's bare typed response value. Sending `textTipForm` with
input `"hi"` returns, at key `"a"`, the field's full entry record — it still
carries the TYPE and TOOLTIP components next to RESPONSE — not the string
`"hi"` itself. -/
theorem C2_send_returns_record_not_value :
    InputForm.send textTipForm ["hi"] = .ok
      ({ textTipForm with inputs :=
          [("a", { type := some .TEXT, tooltip := some "tip", response := some (.str "hi") })] },
        [("a", { type := some .TEXT, tooltip := some "tip", response := some (.str "hi") })], [],
        renderHeading defaultSettings "T" none
          ++ [.prompt ("a" ++ (" --> " ++ "tip" ++ RESET_ALL) ++ ": ")]
          ++ [.print (pyStr (defaultSettings Setting.HEADER))])
    ∧ FieldData.tooltip { type := some .TEXT, tooltip := some "tip", response := some (.str "hi") }
        = some "tip"
    ∧ FieldData.response { type := some .TEXT, tooltip := some "tip", response := some (.str "hi") }
        = some (.str "hi") :=
  ⟨rfl, rfl, rfl⟩

/-- C2 (amended): whenever `InputForm.send` completes, the returned mapping's
keys are exactly the registered non-separator field names in insertion order,
and the value at each key is that field's full entry record, identical to the
registered record except for its RESPONSE component, which holds the acquired
typed response. -/
theorem C2_result_keys_and_records (f : InputForm) (ins : List String)
    (out : InputForm × List (String × FieldData) × List String × List Event)
    (h : f.send ins = .ok out) :
    List.Forall₂ entryShape (f.inputs.filter notSep) out.2.1
    ∧ out.2.1.map Prod.fst = (f.inputs.filter notSep).map Prod.fst := by
  simp only [InputForm.send] at h
  split at h
  · cases h
  · rename_i inputsA remA trA heq
    split at h
    · cases h
    · cases h
      have h2 := sendFields_shape f.settings f.inputs ins (inputsA, remA, trA) heq
      have h3 := forall2_filter_notSep h2
      exact ⟨h3, (forall2_map_fst h3).symm⟩

/-- C2 witness: the amended theorem evaluated on `mixedForm` (a separator
followed by a TEXT field) with input `"hi"`. -/
theorem C2_result_keys_and_records_witness :
    InputForm.send mixedForm ["hi"] = .ok mixedOut
    ∧ (List.Forall₂ entryShape (mixedForm.inputs.filter notSep) mixedOut.2.1
       ∧ mixedOut.2.1.map Prod.fst = (mixedForm.inputs.filter notSep).map Prod.fst) :=
  ⟨rfl, C2_result_keys_and_records mixedForm ["hi"] mixedOut rfl⟩

/-- C3 counterexample: writing the string `"H"` to HEADER and reading it back
returns `"H"` with the colorama style reset appended, not the written value:
`editSetting` stores `newVal + Style.RESET_ALL` for HEADER and SEPARATOR. -/
theorem C3_header_roundtrip_not_identity :
    ((editSetting defaultSettings (some .HEADER) (.str "H")).bind
      (fun st => getSetting st (some .HEADER))) = .ok (.str ("H" ++ RESET_ALL))
    ∧ SVal.str ("H" ++ RESET_ALL) ≠ SVal.str "H" :=
  ⟨rfl, by decide⟩

/-- C3 (amended): for every key and every value accepted by that key's type
rule, `editSetting` then `getSetting` returns exactly the written value for
the callback, clear-flag, failure-threshold and error-colour keys, and the
written string with a style reset appended for the HEADER, SEPARATOR and
OPTIONS_TEXT keys; for any argument outside the setting enumeration both
operations fail with the invalid-key `ValueError`. -/
theorem C3_roundtrip (st : Settings) (k : Setting) (v : SVal)
    (h : specAccepts k v = true) :
    ((editSetting st (some k) v).bind (fun st' => getSetting st' (some k)))
      = .ok (if k = .HEADER ∨ k = .SEPARATOR ∨ k = .OPTIONS_TEXT then appendReset v else v)
    ∧ editSetting st none v = .error (.valueError "Invalid setting")
    ∧ getSetting st none = .error (.valueError "Invalid setting") := by
  refine ⟨?_, rfl, rfl⟩
  cases k <;> cases v <;>
    simp_all [editSetting, getSetting, specAccepts, Settings.update, appendReset,
      svTruthy, SVal.isCallable, SVal.isBool, SVal.isInt, Except.bind]

/-- C3 witness: the amended round trip evaluated at the CLEAR_FORM_AFTER_FORM
key with the value `True`. -/
theorem C3_roundtrip_witness :
    specAccepts .CLEAR_FORM_AFTER_FORM (.bool true) = true
    ∧ (((editSetting defaultSettings (some .CLEAR_FORM_AFTER_FORM) (.bool true)).bind
        (fun st' => getSetting st' (some .CLEAR_FORM_AFTER_FORM)))
        = .ok (if Setting.CLEAR_FORM_AFTER_FORM = .HEADER ∨
                  Setting.CLEAR_FORM_AFTER_FORM = .SEPARATOR ∨
                  Setting.CLEAR_FORM_AFTER_FORM = .OPTIONS_TEXT
               then appendReset (.bool true) else (.bool true))
       ∧ editSetting defaultSettings none (.bool true) = .error (.valueError "Invalid setting")
       ∧ getSetting defaultSettings none = .error (.valueError "Invalid setting")) :=
  ⟨by decide, C3_roundtrip defaultSettings .CLEAR_FORM_AFTER_FORM (.bool true) (by decide)⟩

/-- C4: the claim states that `addOption` with a name containing
`"SEPARATOR"` and no tooltip fails with the reserved-name `ValueError`. No
entry is registered, but the failure is a `TypeError`: the guard evaluates
`"SEPARATOR" in tooltip` with `tooltip = None`, which raises before the
reserved-name `raise` is reached. -/
theorem C4_separator_name_typeerror :
    (OptionForm.mkNew "T" none defaultSettings).addOption "SEPARATOR_X" (.user 7 0) none false
      = .error .typeError
    ∧ PyErr.typeError ≠ .valueError "Option name and tooltip can not include 'SEPARATOR'" :=
  ⟨rfl, by decide⟩

/-- C5: for every OptionForm whose failure-reset threshold is 2 (with a
string error colour, no form-level default callback, the clear-after-form
flag off, and at least one selectable option), two consecutive invalid
submissions followed by a valid one make `send` clear the display and redraw
the full form exactly once, print the carried error message again right after
the redraw, and resume prompting with the registered options unchanged (the
redraw emits the identical rendering `rt`), finally dispatching the chosen
option's callback. -/
theorem C5_threshold_redraw (f : OptionForm) (rt : List Event) (ec nm : String)
    (d : OptData) (tl : List (String × OptData)) (cid ca : Nat)
    (hrt : renderFull f = .ok rt)
    (hsel : selectables f.options = (nm, d) :: tl)
    (hthr : f.settings .CLEAN_FAILED_RESPONSES = .int 2)
    (hec : f.settings .ERROR_COLOUR = .str ec)
    (hdc : f.settings .DEFAULT_CALLBACK = .none)
    (hcf : f.settings .CLEAR_FORM_AFTER_FORM = .bool false)
    (hlk : dictLookup f.options nm = some d)
    (hcb : d.callback = .user cid ca) :
    f.send none ["0", "0", "1"] = .ok ([],
      rt ++ [.prompt "Choose an option by number: "]
         ++ [.print (ec ++ ("Invalid choice, please try again." ++ RESET_ALL)),
             .prompt "Choose an option by number: "]
         ++ clearTrace ++ rt
         ++ [.print (ec ++ ("Invalid choice, please try again." ++ RESET_ALL)),
             .prompt "Choose an option by number: "]
         ++ [.call cid (ca = 1)]) := by
  have hp0 : pyParseInt "0" = some 0 := by decide
  have hp1 : pyParseInt "1" = some 1 := by decide
  have hne := append_right_ne_empty ec
    ("Invalid choice, please try again." ++ RESET_ALL) (by decide)
  have h1n : (1 : Int) ≤ ((tl.length + 1 : Nat) : Int) := by omega
  simp [OptionForm.send, hrt, hsel, hthr, hec, hdc, hcf, hlk, hcb,
    optLoop, optStep, choiceInRange, resetFires, recolor, svalConcatStr,
    pyIntEqSVal, dispatchEvents, svTruthy, hp0, hp1, hne, h1n, Except.map]

/-- C5 witness: the threshold-2 redraw evaluated on the concrete three-option
form with inputs `"0"`, `"0"`, `"1"`. -/
theorem C5_threshold_redraw_witness :
    renderFull optTestFormThresh = .ok rt3
    ∧ selectables optTestFormThresh.options
        = ("A", ⟨.user 1 0, none⟩) :: [("B", ⟨.user 2 0, some "tip"⟩), ("C", ⟨.user 3 0, none⟩)]
    ∧ optTestFormThresh.settings .CLEAN_FAILED_RESPONSES = .int 2
    ∧ optTestFormThresh.settings .ERROR_COLOUR = .str FORE_RED
    ∧ optTestFormThresh.settings .DEFAULT_CALLBACK = .none
    ∧ optTestFormThresh.settings .CLEAR_FORM_AFTER_FORM = .bool false
    ∧ dictLookup optTestFormThresh.options "A" = some ⟨.user 1 0, none⟩
    ∧ optTestFormThresh.send none ["0", "0", "1"] = .ok ([],
        rt3 ++ [.prompt "Choose an option by number: "]
           ++ [.print (FORE_RED ++ ("Invalid choice, please try again." ++ RESET_ALL)),
               .prompt "Choose an option by number: "]
           ++ clearTrace ++ rt3
           ++ [.print (FORE_RED ++ ("Invalid choice, please try again." ++ RESET_ALL)),
               .prompt "Choose an option by number: "]
           ++ [.call 1 false]) :=
  ⟨rfl, rfl, rfl, rfl, rfl, rfl, rfl,
    C5_threshold_redraw optTestFormThresh rt3 FORE_RED "A" ⟨.user 1 0, none⟩
      [("B", ⟨.user 2 0, some "tip"⟩), ("C", ⟨.user 3 0, none⟩)] 1 0
      rfl rfl rfl rfl rfl rfl rfl rfl⟩

/-- C6 counterexample: the claim states that with a default option set, an
empty input line always selects the default regardless of earlier inputs in
the same invocation. On the three-option form whose default is `"C"`
(callback identity 3), the inputs `"7"`, `""`, `"1"` dispatch only the
callback of option `"A"` (identity 1): after the out-of-range `"7"` the
local `choice` is a truthy integer, so the empty line's `ValueError` handler
skips the default branch (`if not choice and self.default_option`) and
records an invalid attempt instead. -/
theorem C6_empty_after_invalid_skips_default :
    optTestFormDefault.default_option = some "C"
    ∧ dictLookup optTestFormDefault.options "C" = some ⟨.user 3 0, none⟩
    ∧ (optTestFormDefault.send none ["7", "", "1"]).map (fun r => callEvents r.2)
        = .ok [(1, false)]
    ∧ ((1 : Nat), false) ≠ ((3 : Nat), false) :=
  ⟨rfl, rfl, rfl, by decide⟩

/-- C6 (amended): with a default option registered among the selectable
options, an empty input line chooses the default directly — bypassing the
numeric range validation, with no error recorded — and dispatches its
callback, provided no earlier input of the invocation has left a truthy
(nonzero) parsed integer in `choice`; here stated for the first read of the
invocation. After an out-of-range nonzero numeric input, an empty line
records an invalid attempt instead (see the counterexample). -/
theorem C6_empty_first_input_selects_default (f : OptionForm) (rt : List Event)
    (nm : String) (d : OptData) (j cid ca : Nat)
    (hrt : renderFull f = .ok rt)
    (hdef : f.default_option = some nm)
    (hidx : idxOf ((selectables f.options).map Prod.fst) nm = some j)
    (hget : (selectables f.options)[j]? = some (nm, d))
    (hdc : f.settings .DEFAULT_CALLBACK = .none)
    (hcf : f.settings .CLEAR_FORM_AFTER_FORM = .bool false)
    (hlk : dictLookup f.options nm = some d)
    (hcb : d.callback = .user cid ca) :
    f.send none [""] = .ok ([],
      rt ++ [.prompt "Choose an option by number: ", .call cid (ca = 1)]) := by
  have hpe : pyParseInt "" = none := by decide
  have hj : (((j : Int) + 1 - 1).toNat) = j := by omega
  simp [OptionForm.send, hrt, hdef, hidx, hget, hdc, hcf, hlk, hcb,
    optLoop, optStep, choiceInRange, resetFires, intOptTruthy,
    dispatchEvents, svTruthy, hpe, hj, Except.map]

/-- C6 witness: the amended default-selection behaviour evaluated on the
three-option form with default `"C"` and a single empty input. -/
theorem C6_empty_first_input_selects_default_witness :
    renderFull optTestFormDefault = .ok rt3
    ∧ optTestFormDefault.default_option = some "C"
    ∧ idxOf ((selectables optTestFormDefault.options).map Prod.fst) "C" = some 2
    ∧ (selectables optTestFormDefault.options)[2]? = some ("C", ⟨.user 3 0, none⟩)
    ∧ optTestFormDefault.send none [""] = .ok ([],
        rt3 ++ [.prompt "Choose an option by number: ", .call 3 false]) :=
  ⟨rfl, rfl, rfl, rfl,
    C6_empty_first_input_selects_default optTestFormDefault rt3 "C" ⟨.user 3 0, none⟩
      2 3 0 rfl rfl rfl rfl rfl rfl rfl rfl⟩

/-- C7: for every OptionForm with exactly three selectable options, no
default option, default threshold (0 = disabled), a string error colour, no
form-level default callback and the clear flag off: input `"2"` resolves to
the second option in insertion order and dispatches its callback exactly
once; inputs `"9"` then `"1"` resolve to the first option after exactly one
recorded invalid attempt (one error line is printed before the second
prompt), again dispatching the callback exactly once. -/
theorem C7_numeric_selection (f : OptionForm) (rt : List Event) (ec : String)
    (n1 n2 n3 : String) (d1 d2 d3 : OptData) (i1 a1 i2 a2 : Nat)
    (hrt : renderFull f = .ok rt)
    (hsel : selectables f.options = [(n1, d1), (n2, d2), (n3, d3)])
    (hdef : f.default_option = none)
    (hthr : f.settings .CLEAN_FAILED_RESPONSES = .int 0)
    (hec : f.settings .ERROR_COLOUR = .str ec)
    (hdc : f.settings .DEFAULT_CALLBACK = .none)
    (hcf : f.settings .CLEAR_FORM_AFTER_FORM = .bool false)
    (hlk1 : dictLookup f.options n1 = some d1)
    (hlk2 : dictLookup f.options n2 = some d2)
    (hc1 : d1.callback = .user i1 a1)
    (hc2 : d2.callback = .user i2 a2) :
    f.send none ["2"] = .ok ([],
      rt ++ [.prompt "Choose an option by number: ", .call i2 (a2 = 1)])
    ∧ f.send none ["9", "1"] = .ok ([],
      rt ++ [.prompt "Choose an option by number: ",
             .print (ec ++ ("Invalid choice, please try again." ++ RESET_ALL)),
             .prompt "Choose an option by number: ",
             .call i1 (a1 = 1)]) := by
  have hp9 : pyParseInt "9" = some 9 := by decide
  have hp1 : pyParseInt "1" = some 1 := by decide
  have hp2 : pyParseInt "2" = some 2 := by decide
  have hne := append_right_ne_empty ec
    ("Invalid choice, please try again." ++ RESET_ALL) (by decide)
  constructor
  · simp [OptionForm.send, hrt, hsel, hdef, hthr, hec, hdc, hcf, hlk2, hc2,
      optLoop, optStep, choiceInRange, resetFires, recolor, svalConcatStr,
      pyIntEqSVal, dispatchEvents, svTruthy, hp2]
  · simp [OptionForm.send, hrt, hsel, hdef, hthr, hec, hdc, hcf, hlk1, hc1,
      optLoop, optStep, choiceInRange, resetFires, recolor, svalConcatStr,
      pyIntEqSVal, dispatchEvents, svTruthy, hp9, hp1, hne, Except.map]

/-- C7 witness: numeric selection evaluated on the concrete three-option
form. -/
theorem C7_numeric_selection_witness :
    renderFull optTestForm = .ok rt3
    ∧ selectables optTestForm.options
        = [("A", ⟨.user 1 0, none⟩), ("B", ⟨.user 2 0, some "tip"⟩), ("C", ⟨.user 3 0, none⟩)]
    ∧ optTestForm.default_option = none
    ∧ (optTestForm.send none ["2"] = .ok ([],
        rt3 ++ [.prompt "Choose an option by number: ", .call 2 false])
      ∧ optTestForm.send none ["9", "1"] = .ok ([],
        rt3 ++ [.prompt "Choose an option by number: ",
                .print (FORE_RED ++ ("Invalid choice, please try again." ++ RESET_ALL)),
                .prompt "Choose an option by number: ",
                .call 1 false])) :=
  ⟨rfl, rfl, rfl,
    C7_numeric_selection optTestForm rt3 FORE_RED "A" "B" "C"
      ⟨.user 1 0, none⟩ ⟨.user 2 0, some "tip"⟩ ⟨.user 3 0, none⟩ 1 0 2 0
      rfl rfl rfl rfl rfl rfl rfl rfl rfl rfl rfl⟩


/-- C8: for every InputForm holding one NUMBER field of subtype INT with
default 5 (any non-reserved field name): an empty input yields the response
`5` (the stored default, unconverted); input `"3.7"` parses, rounds to the
nearest integer and yields `4`; input `"abc"` prints the numeric-format
error and repeats the read loop without accepting a value, the follow-up
`"2"` then being accepted. -/
theorem C8_number_int_default (name : String)
    (hname : strContains name "SEPARATOR" = false) :
    (numField name).send [""] = .ok
      ({ numField name with inputs := [(name, { numEntry with response := some (.int 5) })] },
        [(name, { numEntry with response := some (.int 5) })], [],
        renderHeading defaultSettings "T" none
          ++ [.prompt (promptOf name numEntry)]
          ++ [.print (pyStr (defaultSettings Setting.HEADER))])
    ∧ (numField name).send ["3.7"] = .ok
      ({ numField name with inputs := [(name, { numEntry with response := some (.int 4) })] },
        [(name, { numEntry with response := some (.int 4) })], [],
        renderHeading defaultSettings "T" none
          ++ [.prompt (promptOf name numEntry)]
          ++ [.print (pyStr (defaultSettings Setting.HEADER))])
    ∧ (numField name).send ["abc", "2"] = .ok
      ({ numField name with inputs := [(name, { numEntry with response := some (.int 2) })] },
        [(name, { numEntry with response := some (.int 2) })], [],
        renderHeading defaultSettings "T" none
          ++ [.prompt (promptOf name numEntry),
              .print (FORE_RED ++ ("Please enter a valid number." ++ RESET_ALL)),
              .prompt (promptOf name numEntry)]
          ++ [.print (pyStr (defaultSettings Setting.HEADER))]) := by
  have he : ("" == "") = true := by decide
  have h37 : ("3.7" == "") = false := by decide
  have habc : ("abc" == "") = false := by decide
  have h2 : ("2" == "") = false := by decide
  have hp37 : pyParseFloat "3.7" = some (mkRat 37 10) := by decide
  have hpabc : pyParseFloat "abc" = none := by decide
  have hp2 : pyParseFloat "2" = some (mkRat 2 1) := by decide
  have hr37 : pyRound (mkRat 37 10) = 4 := by decide
  have hr2 : pyRound (mkRat 2 1) = 2 := by decide
  have hr2b : pyRound 2 = 2 := by decide
  refine ⟨?_, ?_, ?_⟩ <;>
    simp [InputForm.send, sendFields, fieldLoop, typedLoop, numField, numEntry,
      hname, notSep, svTruthy, defaultSettings, svalConcatStr,
      he, h37, habc, h2, hp37, hpabc, hp2, hr37, hr2, hr2b]

/-- C8 witness: the NUMBER/INT/default-5 acquisition evaluated at the field
name `"Num"`. -/
theorem C8_number_int_default_witness :
    strContains "Num" "SEPARATOR" = false
    ∧ (    (numField "Num").send [""] = .ok
        ({ numField "Num" with inputs := [("Num", { numEntry with response := some (.int 5) })] },
          [("Num", { numEntry with response := some (.int 5) })], [],
          renderHeading defaultSettings "T" none
            ++ [.prompt (promptOf "Num" numEntry)]
            ++ [.print (pyStr (defaultSettings Setting.HEADER))])
      ∧ (numField "Num").send ["3.7"] = .ok
        ({ numField "Num" with inputs := [("Num", { numEntry with response := some (.int 4) })] },
          [("Num", { numEntry with response := some (.int 4) })], [],
          renderHeading defaultSettings "T" none
            ++ [.prompt (promptOf "Num" numEntry)]
            ++ [.print (pyStr (defaultSettings Setting.HEADER))])
      ∧ (numField "Num").send ["abc", "2"] = .ok
        ({ numField "Num" with inputs := [("Num", { numEntry with response := some (.int 2) })] },
          [("Num", { numEntry with response := some (.int 2) })], [],
          renderHeading defaultSettings "T" none
            ++ [.prompt (promptOf "Num" numEntry),
                .print (FORE_RED ++ ("Please enter a valid number." ++ RESET_ALL)),
                .prompt (promptOf "Num" numEntry)]
            ++ [.print (pyStr (defaultSettings Setting.HEADER))])) :=
  ⟨by decide, C8_number_int_default "Num" (by decide)⟩

/-- C9: registering an option or an input field under an already-registered
name raises no error: the operation succeeds, silently replaces the stored
entry (the second registration's callback/tooltip win), keeps the name at
its original position in insertion order (the key sequence is unchanged),
and preserves the one-entry-per-name invariant (key `Nodup` is preserved,
and the name maps to exactly the new entry). Shown for both
`OptionForm.addOption` and `InputForm.registerTextInput`. -/
theorem C9_duplicate_registration_replaces (f : OptionForm) (g : InputForm)
    (name : String) (cb1 cb2 : Callback) (tt1 tt2 : Option String)
    (hname : strContains name "SEPARATOR" = false) :
    OptionForm.addOption f name cb1 tt1 false
      = .ok { f with options := dictInsert (OptionForm.options f) name ⟨cb1, tt1⟩ }
    ∧ OptionForm.addOption
        { f with options := dictInsert (OptionForm.options f) name ⟨cb1, tt1⟩ } name cb2 tt2 false
      = .ok { f with options := dictInsert (dictInsert (OptionForm.options f) name ⟨cb1, tt1⟩) name ⟨cb2, tt2⟩ }
    ∧ (dictInsert (dictInsert (OptionForm.options f) name ⟨cb1, tt1⟩) name ⟨cb2, tt2⟩).map Prod.fst
      = (dictInsert (OptionForm.options f) name ⟨cb1, tt1⟩).map Prod.fst
    ∧ dictLookup (dictInsert (dictInsert (OptionForm.options f) name ⟨cb1, tt1⟩) name ⟨cb2, tt2⟩) name
      = some ⟨cb2, tt2⟩
    ∧ (((OptionForm.options f).map Prod.fst).Nodup →
        ((dictInsert (dictInsert (OptionForm.options f) name ⟨cb1, tt1⟩) name ⟨cb2, tt2⟩).map Prod.fst).Nodup)
    ∧ InputForm.registerTextInput g name tt1 none none none
      = .ok { g with inputs := dictInsert (InputForm.inputs g) name (textEntry tt1) }
    ∧ InputForm.registerTextInput
        { g with inputs := dictInsert (InputForm.inputs g) name (textEntry tt1) } name tt2 none none none
      = .ok { g with inputs := dictInsert (dictInsert (InputForm.inputs g) name (textEntry tt1)) name (textEntry tt2) }
    ∧ (dictInsert (dictInsert (InputForm.inputs g) name (textEntry tt1)) name (textEntry tt2)).map Prod.fst
      = (dictInsert (InputForm.inputs g) name (textEntry tt1)).map Prod.fst
    ∧ dictLookup (dictInsert (dictInsert (InputForm.inputs g) name (textEntry tt1)) name (textEntry tt2)) name
      = some (textEntry tt2) := by
  refine ⟨?_, ?_, ?_, ?_, ?_, ?_, ?_, ?_, ?_⟩
  · simp [OptionForm.addOption, hname]
  · simp [OptionForm.addOption, hname]
  · exact keys_dictInsert_of_mem _ _ _ (mem_keys_dictInsert _ _ _)
  · exact dictLookup_dictInsert _ _ _
  · exact fun h => nodup_keys_dictInsert _ _ _ (nodup_keys_dictInsert _ _ _ h)
  · simp [InputForm.registerTextInput, inputRegistrationGuard, hname, textEntry]
  · simp [InputForm.registerTextInput, inputRegistrationGuard, hname, textEntry]
  · exact keys_dictInsert_of_mem _ _ _ (mem_keys_dictInsert _ _ _)
  · exact dictLookup_dictInsert _ _ _

/-- C9 witness: duplicate registration evaluated on fresh forms under the
name `"Opt"`. -/
theorem C9_duplicate_registration_replaces_witness :
    strContains "Opt" "SEPARATOR" = false
    ∧ (OptionForm.addOption wOptForm "Opt" (Callback.user 1 0) none false
        = .ok { wOptForm with options := dictInsert (OptionForm.options wOptForm) "Opt" ⟨(Callback.user 1 0), none⟩ }
      ∧ OptionForm.addOption
          { wOptForm with options := dictInsert (OptionForm.options wOptForm) "Opt" ⟨(Callback.user 1 0), none⟩ } "Opt" (Callback.user 2 1) (some "t2") false
        = .ok { wOptForm with options := dictInsert (dictInsert (OptionForm.options wOptForm) "Opt" ⟨(Callback.user 1 0), none⟩) "Opt" ⟨(Callback.user 2 1), (some "t2")⟩ }
      ∧ (dictInsert (dictInsert (OptionForm.options wOptForm) "Opt" ⟨(Callback.user 1 0), none⟩) "Opt" ⟨(Callback.user 2 1), (some "t2")⟩).map Prod.fst
        = (dictInsert (OptionForm.options wOptForm) "Opt" ⟨(Callback.user 1 0), none⟩).map Prod.fst
      ∧ dictLookup (dictInsert (dictInsert (OptionForm.options wOptForm) "Opt" ⟨(Callback.user 1 0), none⟩) "Opt" ⟨(Callback.user 2 1), (some "t2")⟩) "Opt"
        = some ⟨(Callback.user 2 1), (some "t2")⟩
      ∧ (((OptionForm.options wOptForm).map Prod.fst).Nodup →
          ((dictInsert (dictInsert (OptionForm.options wOptForm) "Opt" ⟨(Callback.user 1 0), none⟩) "Opt" ⟨(Callback.user 2 1), (some "t2")⟩).map Prod.fst).Nodup)
      ∧ InputForm.registerTextInput wInForm "Opt" none none none none
        = .ok { wInForm with inputs := dictInsert (InputForm.inputs wInForm) "Opt" (textEntry none) }
      ∧ InputForm.registerTextInput
          { wInForm with inputs := dictInsert (InputForm.inputs wInForm) "Opt" (textEntry none) } "Opt" (some "t2") none none none
        = .ok { wInForm with inputs := dictInsert (dictInsert (InputForm.inputs wInForm) "Opt" (textEntry none)) "Opt" (textEntry (some "t2")) }
      ∧ (dictInsert (dictInsert (InputForm.inputs wInForm) "Opt" (textEntry none)) "Opt" (textEntry (some "t2"))).map Prod.fst
        = (dictInsert (InputForm.inputs wInForm) "Opt" (textEntry none)).map Prod.fst
      ∧ dictLookup (dictInsert (dictInsert (InputForm.inputs wInForm) "Opt" (textEntry none)) "Opt" (textEntry (some "t2"))) "Opt"
        = some (textEntry (some "t2"))) :=
  ⟨by decide,
    C9_duplicate_registration_replaces wOptForm wInForm "Opt"
      (Callback.user 1 0) (Callback.user 2 1) none (some "t2") (by decide)⟩

/-- C10: whenever `InputForm.send` completes, the returned mapping is the
form's own input collection after the separator entries have been
destructively removed from it: the post-state `inputs` and the returned
mapping are the same collection (the source returns `self.inputs` itself
after popping), and no remaining key contains the separator marker, so a
subsequent send would not display any separator. -/
theorem C10_send_returns_own_inputs (f : InputForm) (ins : List String)
    (out : InputForm × List (String × FieldData) × List String × List Event)
    (h : f.send ins = .ok out) :
    out.1.inputs = out.2.1 ∧ out.2.1.all notSep = true := by
  simp only [InputForm.send] at h
  split at h
  · cases h
  · rename_i inputsA remA trA heq
    split at h
    · cases h
    · cases h
      refine ⟨rfl, ?_⟩
      simp only [List.all_eq_true]
      intro p hp
      exact List.of_mem_filter hp

/-- C10 witness: the aliasing and separator-stripping behaviour evaluated on
`mixedForm` with input `"hi"`. -/
theorem C10_send_returns_own_inputs_witness :
    InputForm.send mixedForm ["hi"] = .ok mixedOut
    ∧ (mixedOut.1.inputs = mixedOut.2.1 ∧ mixedOut.2.1.all notSep = true) :=
  ⟨rfl, C10_send_returns_own_inputs mixedForm ["hi"] mixedOut rfl⟩
